import Mathlib

/-!
Verification of the PR-review-notifier webhook service (app/main.py).

The embedding is shallow: Python dict-shaped JSON values become the
inductive `Json`; Python subscript access `d[k]` (which raises `KeyError`
on a missing key) becomes `Json.item` in the `Except PyErr` monad, while
`d.get(k)` (which returns `None` on a missing key) becomes `Json.get`.
External collaborators (the GitHub REST API and the Slack transport) are
modelled by an oracle `World` that maps each outbound endpoint to the
response the collaborator would give, and every outbound interaction is
recorded in a trace of `Effect`s.  In every handler of the source, all
fallible key accesses happen before the first outbound call, so carrying
the trace inside `Except` (and dropping it on an exception) is
observationally faithful.
-/

/-- A JSON value as Python sees it after `request.json()`. -/
inductive Json where
  | null
  | bool (b : Bool)
  | num (n : Int)
  | str (s : String)
  | arr (xs : List Json)
  | obj (fields : List (String × Json))

/-- The Python exceptions that the embedded code can raise. -/
inductive PyErr where
  | keyError (k : String)
  | typeError (s : String)
  | attributeError (s : String)
deriving Repr, DecidableEq

/-- Python subscript access `d[k]`: `KeyError` when the key is absent,
`TypeError` when the value is not a dict. -/
def Json.item : Json → String → Except PyErr Json
  | .obj fs, k =>
    match fs.lookup k with
    | some v => Except.ok v
    | none => Except.error (PyErr.keyError k)
  | _, _ => Except.error (PyErr.typeError "value is not subscriptable")

/-- Python `d.get(k)`: `None` (here `Json.null`) when the key is absent,
`AttributeError` when the value is not a dict. -/
def Json.get : Json → String → Except PyErr Json
  | .obj fs, k => Except.ok ((fs.lookup k).getD Json.null)
  | _, _ => Except.error (PyErr.attributeError "no attribute get")

/-- Python `==` between a JSON value and a string literal: equal strings
compare equal, every non-string value compares unequal without error. -/
def Json.beqStr : Json → String → Bool
  | .str s, t => s == t
  | _, _ => false

/-- Python `str()` as used by f-string interpolation in the source.  The
only values interpolated by the handlers are strings, numbers and `None`;
the rendering of containers is abstracted since no claim depends on it. -/
def Json.pystr : Json → String
  | .null => "None"
  | .bool true => "True"
  | .bool false => "False"
  | .num n => toString n
  | .str s => s
  | .arr _ => "<list>"
  | .obj _ => "<dict>"

/-- The static configuration consumed by app/main.py (app.config). -/
structure Config where
  DEFAULT_LABEL_NAME : String
  DEFAULT_SLACK_CHANNEL : String
  REQUIRED_APPROVES : Int
  OWNER_NAME : String
  REPO_NAME : String
  GITHUB_API_BASE : String
  GITHUB_ACCESS_TOKEN : String

/-- Oracle for the external GitHub API: for each endpoint URL, the
`total_count` field of the search response, the HTTP status of a DELETE,
and the `message` field of the body accompanying an unexpected status. -/
structure World where
  searchTotalCount : String → Int
  deleteStatus : String → Nat
  deleteMessage : String → String

/-- One observable interaction of a handler: an outbound Slack message,
an outbound GitHub request, or a log line. -/
inductive Effect where
  | sendMessage (message : String) (channel : String)
  | httpGet (endpoint : String)
  | httpDelete (endpoint : String)
  | logDebug (s : String)
  | logInfo (s : String)
  | logError (s : String)
deriving Repr, DecidableEq

/-- The Slack notifications in a trace. -/
def sends (tr : List Effect) : List Effect :=
  tr.filter fun e => match e with | .sendMessage _ _ => true | _ => false

/-- The GitHub search requests in a trace. -/
def searches (tr : List Effect) : List Effect :=
  tr.filter fun e => match e with | .httpGet _ => true | _ => false

/-- The GitHub label-deletion requests in a trace. -/
def deletes (tr : List Effect) : List Effect :=
  tr.filter fun e => match e with | .httpDelete _ => true | _ => false

/-- An aiohttp `web.Response`; `web.Response(text=...)` has status 200. -/
structure HttpResponse where
  status : Nat
  text : String
deriving Repr, DecidableEq

/-- `web.Response(text=t)`. -/
def webResponse (t : String) : HttpResponse := ⟨200, t⟩

/-- The search URL built by `is_pr_approved` for a PR title. -/
def searchUrl (c : Config) (pr_title : String) : String :=
  "search/issues?q=" ++ pr_title ++ "+repo:" ++ c.OWNER_NAME ++ "/" ++
    c.REPO_NAME ++ "+is:pr+is:open+review:approved"

/-- The full search endpoint with the access token appended. -/
def searchEndpoint (c : Config) (pr_title : String) : String :=
  c.GITHUB_API_BASE ++ searchUrl c pr_title ++ "&access_token=" ++
    c.GITHUB_ACCESS_TOKEN

/-- `is_pr_approved` (app/main.py lines 69-85): GET the search endpoint
and return the Python truthiness of the response `total_count`. -/
def is_pr_approved (c : Config) (w : World) (pr_title : String) :
    List Effect × Bool :=
  ([Effect.logDebug ("Checking if " ++ pr_title ++ " is approved: " ++
      searchUrl c pr_title),
    Effect.httpGet (searchEndpoint c pr_title)],
   w.searchTotalCount (searchEndpoint c pr_title) != 0)

/-- The label-deletion URL built by `delete_label` for an issue number. -/
def deleteUrl (c : Config) (issue : Json) : String :=
  "repos/" ++ c.OWNER_NAME ++ "/" ++ c.REPO_NAME ++ "/issues/" ++
    issue.pystr ++ "/labels/" ++ c.DEFAULT_LABEL_NAME

/-- The full deletion endpoint with the access token appended. -/
def deleteEndpoint (c : Config) (issue : Json) : String :=
  c.GITHUB_API_BASE ++ deleteUrl c issue ++ "?access_token=" ++
    c.GITHUB_ACCESS_TOKEN

/-- `delete_label` (app/main.py lines 88-106): DELETE the endpoint, then
branch on the HTTP status: 404 logs info, 200 logs debug, anything else
logs the error message carried by the response body.  The function is
total: no branch raises. -/
def delete_label (c : Config) (w : World) (issue : Json) : List Effect :=
  let ep := deleteEndpoint c issue
  Effect.httpDelete ep ::
    (if w.deleteStatus ep = 404 then
      [Effect.logInfo "Label has been already removed"]
    else if w.deleteStatus ep = 200 then
      [Effect.logDebug "Label was successfully removed"]
    else
      [Effect.logError ("Unexpected response: " ++ w.deleteMessage ep)])

/-- The notification text formatted by `_handle_labeled`. -/
def labeledMessage (title user page_url : Json) : String :=
  "@here PR _" ++ title.pystr ++ "_ by *" ++ user.pystr ++
    "* is waiting for review <" ++ page_url.pystr ++ ">"

/-- `_handle_labeled` (app/main.py lines 23-36): read the required fields
with subscript access, then notify iff the label name matches the
configured target. -/
def _handle_labeled (c : Config) (data : Json) :
    Except PyErr (List Effect) := do
  let label ← data.item "label"
  let pr ← data.item "pull_request"
  let _issue_number ← pr.item "number"
  let title ← pr.item "title"
  let page_url ← pr.item "html_url"
  let user ← (← pr.item "user").item "login"
  let name ← label.item "name"
  if name.beqStr c.DEFAULT_LABEL_NAME then
    pure [Effect.logDebug ("Sending notification about " ++ page_url.pystr),
          Effect.sendMessage (labeledMessage title user page_url)
            c.DEFAULT_SLACK_CHANNEL]
  else
    pure []

/-- The ready-to-merge notification text formatted by `_handle_reviewed`. -/
def readyMessage (c : Config) (pr_title : Json) : String :=
  ":green_check_mark: PR _" ++ pr_title.pystr ++ "_ has " ++
    toString c.REQUIRED_APPROVES ++ " approves and can be merged!"

/-- `_handle_reviewed` (app/main.py lines 39-53): for an approved review,
run the approval search; when it reports a match, log, delete the label
and send the ready-to-merge notification. -/
def _handle_reviewed (c : Config) (w : World) (data : Json) :
    Except PyErr (List Effect) := do
  let state ← (← data.item "review").item "state"
  let issue_number ← (← data.item "pull_request").item "number"
  if state.beqStr "approved" then
    let pr_title ← (← data.item "pull_request").item "title"
    let checked := is_pr_approved c w pr_title.pystr
    if checked.2 then
      pure (checked.1 ++
        [Effect.logInfo ("We have " ++ toString c.REQUIRED_APPROVES ++
          " approves for pr " ++ pr_title.pystr ++ ", removing label")] ++
        delete_label c w issue_number ++
        [Effect.sendMessage (readyMessage c pr_title)
          c.DEFAULT_SLACK_CHANNEL])
    else
      pure checked.1
  else
    pure []

/-- `handle_pr_event` (app/main.py lines 56-66): dispatch on the optional
`action` field and always answer `Ok` when the taken branch returns. -/
def handle_pr_event (c : Config) (w : World) (data : Json) :
    Except PyErr (List Effect × HttpResponse) := do
  let action ← data.get "action"
  let effs ←
    if action.beqStr "labeled" then _handle_labeled c data
    else if action.beqStr "submitted" then _handle_reviewed c w data
    else pure [Effect.logDebug ("Unknown action " ++ action.pystr)]
  pure (effs, webResponse "Ok")

/-- The session carried by the encrypted cookie: a partial map from keys
to string values. -/
def Session : Type := String → Option String

/-- `session[k] = v`. -/
def sessionSet (s : Session) (k v : String) : Session :=
  fun x => if x = k then some v else s x

/-- The removal half of `session.pop(k, default)`. -/
def sessionDel (s : Session) (k : String) : Session :=
  fun x => if x = k then none else s x

/-- A GET /auth request: its query-string parameters. -/
structure AuthRequest where
  query : List (String × String)

/-- Oracle for the OAuth provider: the authorize URL for a scope and the
access token returned by the code-for-token exchange. -/
structure AuthWorld where
  authorizeUrl : String → String
  accessToken : String → String

/-- An aiohttp redirect response `web.HTTPFound(location)`. -/
structure FoundResponse where
  location : String
deriving Repr, DecidableEq

/-- `github_auth` (app/main.py lines 129-147): with no `code` query
parameter, stash the requested redirect target (default `/`) in the
session and redirect to the provider authorize URL; with a `code`,
exchange it for a token, store the token in the session, pop the stashed
redirect target (default `/`) and redirect there. -/
def github_auth (aw : AuthWorld) (req : AuthRequest) (session : Session) :
    FoundResponse × Session :=
  match req.query.lookup "code" with
  | none =>
    let redirect_uri := (req.query.lookup "redirect_uri").getD "/"
    (⟨aw.authorizeUrl "user:email"⟩,
     sessionSet session "redirect_uri" redirect_uri)
  | some code =>
    let token := aw.accessToken code
    let session1 := sessionSet session "token" token
    let next_uri := (session1 "redirect_uri").getD "/"
    (⟨next_uri⟩, sessionDel session1 "redirect_uri")

/-- A fixed configuration used to instantiate the theorems below. -/
def cfg0 : Config :=
  { DEFAULT_LABEL_NAME := "needs review"
    DEFAULT_SLACK_CHANNEL := "#dev"
    REQUIRED_APPROVES := 2
    OWNER_NAME := "misha-brt"
    REPO_NAME := "pr-review-notifier"
    GITHUB_API_BASE := "https://api.github.com/"
    GITHUB_ACCESS_TOKEN := "tok" }

/-- A world whose approval search always reports one match and whose
label deletion always answers 200. -/
def wHit : World :=
  { searchTotalCount := fun _ => 1
    deleteStatus := fun _ => 200
    deleteMessage := fun _ => "" }

/-- A world whose approval search always reports zero matches. -/
def wMiss : World :=
  { searchTotalCount := fun _ => 0
    deleteStatus := fun _ => 200
    deleteMessage := fun _ => "" }

/-- A world whose label deletion always answers 404. -/
def wGone : World :=
  { searchTotalCount := fun _ => 1
    deleteStatus := fun _ => 404
    deleteMessage := fun _ => "" }

/-- A well-formed `labeled` payload whose label matches `cfg0`. -/
def labeledPayload : Json :=
  Json.obj
    [("action", Json.str "labeled"),
     ("label", Json.obj [("name", Json.str "needs review")]),
     ("pull_request", Json.obj
       [("number", Json.num 7),
        ("title", Json.str "Fix race"),
        ("html_url", Json.str "https://github.com/x/y/pull/7"),
        ("user", Json.obj [("login", Json.str "alice")])])]

/-- A well-formed `submitted` payload with an approved review. -/
def approvedPayload : Json :=
  Json.obj
    [("action", Json.str "submitted"),
     ("review", Json.obj [("state", Json.str "approved")]),
     ("pull_request", Json.obj
       [("number", Json.num 7),
        ("title", Json.str "Fix race"),
        ("html_url", Json.str "https://github.com/x/y/pull/7"),
        ("user", Json.obj [("login", Json.str "alice")])])]

/-- A `labeled` payload carrying only the `action` key: every other field
that `_handle_labeled` reads is missing. -/
def malformedLabeledPayload : Json :=
  Json.obj [("action", Json.str "labeled")]

/-- A fixed OAuth-provider oracle for the witnesses below. -/
def authW : AuthWorld :=
  { authorizeUrl := fun scope =>
      "https://github.com/login/oauth/authorize?scope=" ++ scope
    accessToken := fun code => "token-for-" ++ code }

/-- The empty session. -/
def emptySession : Session := fun _ => none

/-- A `submitted` payload whose review state is not `approved`. -/
def changesPayload : Json :=
  Json.obj
    [("action", Json.str "submitted"),
     ("review", Json.obj [("state", Json.str "changes_requested")]),
     ("pull_request", Json.obj
       [("number", Json.num 7), ("title", Json.str "Fix race")])]

/-- A `labeled` payload whose label name differs from the one in `cfg0`. -/
def otherLabelPayload : Json :=
  Json.obj
    [("action", Json.str "labeled"),
     ("label", Json.obj [("name", Json.str "bug")]),
     ("pull_request", Json.obj
       [("number", Json.num 7),
        ("title", Json.str "t"),
        ("html_url", Json.str "u"),
        ("user", Json.obj [("login", Json.str "l")])])]

/-- Helper: an `Except` bind that succeeds factors into two successes. -/
theorem except_bind_ok {α β : Type} {e : Except PyErr α}
    {f : α → Except PyErr β} {v : β}
    (h : e >>= f = Except.ok v) :
    ∃ a, e = Except.ok a ∧ f a = Except.ok v := by
  cases e with
  | error err => simp [Bind.bind, Except.bind] at h
  | ok a => exact ⟨a, rfl, by simpa [Bind.bind, Except.bind] using h⟩

/-- Helper: `delete_label` always issues exactly the DELETE request and
then only log lines, whatever status the API answers. -/
theorem delete_label_shape (c : Config) (w : World) (issue : Json) :
    ∃ logs : List Effect,
      delete_label c w issue =
        Effect.httpDelete (deleteEndpoint c issue) :: logs ∧
      sends logs = [] ∧ deletes logs = [] ∧ searches logs = [] := by
  unfold delete_label
  by_cases h1 : w.deleteStatus (deleteEndpoint c issue) = 404
  · exact ⟨[Effect.logInfo "Label has been already removed"],
      by simp [h1], rfl, rfl, rfl⟩
  · by_cases h2 : w.deleteStatus (deleteEndpoint c issue) = 200
    · exact ⟨[Effect.logDebug "Label was successfully removed"],
        by simp [h1, h2], rfl, rfl, rfl⟩
    · exact ⟨[Effect.logError ("Unexpected response: " ++
          w.deleteMessage (deleteEndpoint c issue))],
        by simp [h1, h2], rfl, rfl, rfl⟩

/-- Claim C1, counterexample: a `/payload` JSON body that takes the
`labeled` branch but lacks the `label` key makes `handle_pr_event` raise
`KeyError`, so the sender does not receive HTTP 200 with body `Ok`. -/
theorem handle_pr_event_malformed_labeled_raises :
    handle_pr_event cfg0 wHit malformedLabeledPayload =
      Except.error (PyErr.keyError "label") := rfl

/-- Claim C1, amended: whenever `handle_pr_event` returns at all (that
is, whenever the taken branch does not raise on a missing required
field), the response is HTTP 200 with body `Ok`, on every branch. -/
theorem handle_pr_event_ok_response_is_Ok (c : Config) (w : World)
    (data : Json) (tr : List Effect) (resp : HttpResponse)
    (h : handle_pr_event c w data = Except.ok (tr, resp)) :
    resp = webResponse "Ok" := by
  unfold handle_pr_event at h
  obtain ⟨action, h1, h2⟩ := except_bind_ok h
  dsimp only at h2
  split at h2 <;>
    [skip; split at h2] <;>
    · obtain ⟨effs, h3, h4⟩ := except_bind_ok h2
      simp [pure, Except.pure] at h4
      exact h4.2.symm

/-- Witness for C1 at a concrete unknown-action payload. -/
theorem handle_pr_event_ok_response_is_Ok_witness :
    webResponse "Ok" = webResponse "Ok" :=
  handle_pr_event_ok_response_is_Ok cfg0 wHit (Json.obj [])
    [Effect.logDebug "Unknown action None"] (webResponse "Ok") rfl

/-- Claim C2: for a `submitted` payload with an approved review whose
approval search reports a non-zero result count, `_handle_reviewed`
issues the label deletion for the pull-request number of the payload and
afterwards sends exactly one ready-to-merge notification to the
configured default channel (the whole trace contains exactly one Slack
send and exactly one DELETE, and the send is in the part of the trace
after the DELETE). -/
theorem handle_reviewed_approved_threshold_met
    (c : Config) (w : World) (data rv pr numJ : Json) (title : String)
    (hr : data.item "review" = Except.ok rv)
    (hs : rv.item "state" = Except.ok (Json.str "approved"))
    (hp : data.item "pull_request" = Except.ok pr)
    (hn : pr.item "number" = Except.ok numJ)
    (ht : pr.item "title" = Except.ok (Json.str title))
    (hc : w.searchTotalCount (searchEndpoint c title) ≠ 0) :
    ∃ pre post : List Effect,
      _handle_reviewed c w data =
        Except.ok (pre ++ Effect.httpDelete (deleteEndpoint c numJ) :: post) ∧
      sends (pre ++ Effect.httpDelete (deleteEndpoint c numJ) :: post) =
        [Effect.sendMessage (readyMessage c (Json.str title))
          c.DEFAULT_SLACK_CHANNEL] ∧
      deletes (pre ++ Effect.httpDelete (deleteEndpoint c numJ) :: post) =
        [Effect.httpDelete (deleteEndpoint c numJ)] ∧
      sends pre = [] := by
  obtain ⟨logs, hdl, hs1, hd1, _⟩ := delete_label_shape c w numJ
  refine ⟨[Effect.logDebug ("Checking if " ++ title ++ " is approved: " ++
      searchUrl c title),
    Effect.httpGet (searchEndpoint c title),
    Effect.logInfo ("We have " ++ toString c.REQUIRED_APPROVES ++
      " approves for pr " ++ title ++ ", removing label")],
    logs ++ [Effect.sendMessage (readyMessage c (Json.str title))
      c.DEFAULT_SLACK_CHANNEL], ?_, ?_, ?_, rfl⟩
  · simp [_handle_reviewed, hr, hs, hp, hn, ht, Json.beqStr, Json.pystr,
      is_pr_approved, bne_iff_ne, hc, hdl, Bind.bind, Except.bind, pure,
      Except.pure]
  · simp only [sends] at hs1 ⊢
    simp [List.filter_append, hs1]
  · simp only [deletes] at hd1 ⊢
    simp [List.filter_append, hd1]

/-- Witness for C2 at a concrete approved payload and a world whose
search reports one match. -/
theorem handle_reviewed_approved_threshold_met_witness :
    ∃ pre post : List Effect,
      _handle_reviewed cfg0 wHit approvedPayload =
        Except.ok (pre ++
          Effect.httpDelete (deleteEndpoint cfg0 (Json.num 7)) :: post) ∧
      sends (pre ++
          Effect.httpDelete (deleteEndpoint cfg0 (Json.num 7)) :: post) =
        [Effect.sendMessage (readyMessage cfg0 (Json.str "Fix race"))
          cfg0.DEFAULT_SLACK_CHANNEL] ∧
      deletes (pre ++
          Effect.httpDelete (deleteEndpoint cfg0 (Json.num 7)) :: post) =
        [Effect.httpDelete (deleteEndpoint cfg0 (Json.num 7))] ∧
      sends pre = [] :=
  handle_reviewed_approved_threshold_met cfg0 wHit approvedPayload
    (Json.obj [("state", Json.str "approved")])
    (Json.obj
      [("number", Json.num 7),
       ("title", Json.str "Fix race"),
       ("html_url", Json.str "https://github.com/x/y/pull/7"),
       ("user", Json.obj [("login", Json.str "alice")])])
    (Json.num 7) "Fix race" rfl rfl rfl rfl rfl (by decide)

/-- Claim C3: for a `labeled` payload whose label name equals the
configured target label, `_handle_labeled` sends exactly one
notification, its channel is the configured default channel, and its
message contains the PR title, the author login and the PR html url as
substrings. -/
theorem handle_labeled_matching_label_notifies
    (c : Config) (data lb pr u numJ : Json) (title user url : String)
    (hl : data.item "label" = Except.ok lb)
    (hp : data.item "pull_request" = Except.ok pr)
    (hn : pr.item "number" = Except.ok numJ)
    (ht : pr.item "title" = Except.ok (Json.str title))
    (hu : pr.item "html_url" = Except.ok (Json.str url))
    (hg : pr.item "user" = Except.ok u)
    (hlogin : u.item "login" = Except.ok (Json.str user))
    (hname : lb.item "name" = Except.ok (Json.str c.DEFAULT_LABEL_NAME)) :
    ∃ tr : List Effect,
      _handle_labeled c data = Except.ok tr ∧
      sends tr = [Effect.sendMessage
        (labeledMessage (Json.str title) (Json.str user) (Json.str url))
        c.DEFAULT_SLACK_CHANNEL] ∧
      (∃ a b, labeledMessage (Json.str title) (Json.str user) (Json.str url) =
        a ++ title ++ b) ∧
      (∃ a b, labeledMessage (Json.str title) (Json.str user) (Json.str url) =
        a ++ user ++ b) ∧
      (∃ a b, labeledMessage (Json.str title) (Json.str user) (Json.str url) =
        a ++ url ++ b) := by
  refine ⟨[Effect.logDebug ("Sending notification about " ++ url),
    Effect.sendMessage
      (labeledMessage (Json.str title) (Json.str user) (Json.str url))
      c.DEFAULT_SLACK_CHANNEL], ?_, rfl, ?_, ?_, ?_⟩
  · simp [_handle_labeled, hl, hp, hn, ht, hu, hg, hlogin, hname,
      Json.beqStr, Json.pystr, Bind.bind, Except.bind, pure, Except.pure]
  · exact ⟨"@here PR _", "_ by *" ++ user ++ "* is waiting for review <" ++
      url ++ ">", by simp [labeledMessage, Json.pystr, String.append_assoc]⟩
  · exact ⟨"@here PR _" ++ title ++ "_ by *",
      "* is waiting for review <" ++ url ++ ">",
      by simp [labeledMessage, Json.pystr, String.append_assoc]⟩
  · exact ⟨"@here PR _" ++ title ++ "_ by *" ++ user ++
      "* is waiting for review <", ">",
      by simp [labeledMessage, Json.pystr, String.append_assoc]⟩

/-- Witness for C3 at a concrete matching labeled payload. -/
theorem handle_labeled_matching_label_notifies_witness :
    ∃ tr : List Effect,
      _handle_labeled cfg0 labeledPayload = Except.ok tr ∧
      sends tr = [Effect.sendMessage
        (labeledMessage (Json.str "Fix race") (Json.str "alice")
          (Json.str "https://github.com/x/y/pull/7"))
        cfg0.DEFAULT_SLACK_CHANNEL] ∧
      (∃ a b, labeledMessage (Json.str "Fix race") (Json.str "alice")
        (Json.str "https://github.com/x/y/pull/7") = a ++ "Fix race" ++ b) ∧
      (∃ a b, labeledMessage (Json.str "Fix race") (Json.str "alice")
        (Json.str "https://github.com/x/y/pull/7") = a ++ "alice" ++ b) ∧
      (∃ a b, labeledMessage (Json.str "Fix race") (Json.str "alice")
        (Json.str "https://github.com/x/y/pull/7") =
          a ++ "https://github.com/x/y/pull/7" ++ b) :=
  handle_labeled_matching_label_notifies cfg0 labeledPayload
    (Json.obj [("name", Json.str "needs review")])
    (Json.obj
      [("number", Json.num 7),
       ("title", Json.str "Fix race"),
       ("html_url", Json.str "https://github.com/x/y/pull/7"),
       ("user", Json.obj [("login", Json.str "alice")])])
    (Json.obj [("login", Json.str "alice")])
    (Json.num 7) "Fix race" "alice" "https://github.com/x/y/pull/7"
    rfl rfl rfl rfl rfl rfl rfl rfl

/-- Claim C4: `is_pr_approved` answers true iff the `total_count` of the
search response is non-zero, and the answer does not depend on the
`REQUIRED_APPROVES` configuration constant. -/
theorem is_pr_approved_iff_total_count_nonzero
    (c : Config) (w : World) (pr_title : String) :
    ((is_pr_approved c w pr_title).2 = true ↔
      w.searchTotalCount (searchEndpoint c pr_title) ≠ 0) ∧
    ∀ n : Int,
      (is_pr_approved { c with REQUIRED_APPROVES := n } w pr_title).2 =
        (is_pr_approved c w pr_title).2 := by
  constructor
  · simp [is_pr_approved]
  · intro n
    rfl

/-- Claim C5: `delete_label` returns (it is a total function, so no
branch raises) and its three outcomes are exactly: 404 logs the label as
already removed, 200 logs success, and any other status logs an error
carrying the message of the response body; nothing is retried. -/
theorem delete_label_status_outcomes (c : Config) (w : World) (issue : Json) :
    (w.deleteStatus (deleteEndpoint c issue) = 404 →
      delete_label c w issue =
        [Effect.httpDelete (deleteEndpoint c issue),
         Effect.logInfo "Label has been already removed"]) ∧
    (w.deleteStatus (deleteEndpoint c issue) = 200 →
      delete_label c w issue =
        [Effect.httpDelete (deleteEndpoint c issue),
         Effect.logDebug "Label was successfully removed"]) ∧
    (w.deleteStatus (deleteEndpoint c issue) ≠ 404 →
      w.deleteStatus (deleteEndpoint c issue) ≠ 200 →
      delete_label c w issue =
        [Effect.httpDelete (deleteEndpoint c issue),
         Effect.logError ("Unexpected response: " ++
           w.deleteMessage (deleteEndpoint c issue))]) := by
  refine ⟨fun h => ?_, fun h => ?_, fun h1 h2 => ?_⟩
  · simp [delete_label, h]
  · by_cases h4 : w.deleteStatus (deleteEndpoint c issue) = 404
    · rw [h] at h4
      simp at h4
    · simp [delete_label, h, h4]
  · simp [delete_label, h1, h2]

/-- Witness for C5 at a world whose deletion endpoint answers 404. -/
theorem delete_label_status_outcomes_witness :
    delete_label cfg0 wGone (Json.num 7) =
      [Effect.httpDelete (deleteEndpoint cfg0 (Json.num 7)),
       Effect.logInfo "Label has been already removed"] :=
  (delete_label_status_outcomes cfg0 wGone (Json.num 7)).1 rfl

/-- Claim C6: for a `submitted` payload with an approved review whose
approval search reports zero results, `_handle_reviewed` issues no label
deletion and sends no notification. -/
theorem handle_reviewed_zero_results_no_action
    (c : Config) (w : World) (data rv pr numJ : Json) (title : String)
    (hr : data.item "review" = Except.ok rv)
    (hs : rv.item "state" = Except.ok (Json.str "approved"))
    (hp : data.item "pull_request" = Except.ok pr)
    (hn : pr.item "number" = Except.ok numJ)
    (ht : pr.item "title" = Except.ok (Json.str title))
    (hc : w.searchTotalCount (searchEndpoint c title) = 0) :
    ∃ tr : List Effect,
      _handle_reviewed c w data = Except.ok tr ∧
      deletes tr = [] ∧ sends tr = [] := by
  refine ⟨[Effect.logDebug ("Checking if " ++ title ++ " is approved: " ++
      searchUrl c title), Effect.httpGet (searchEndpoint c title)],
    ?_, rfl, rfl⟩
  simp [_handle_reviewed, hr, hs, hp, hn, ht, Json.beqStr, Json.pystr,
    is_pr_approved, hc, Bind.bind, Except.bind, pure, Except.pure]

/-- Witness for C6 at a world whose search reports zero matches. -/
theorem handle_reviewed_zero_results_no_action_witness :
    ∃ tr : List Effect,
      _handle_reviewed cfg0 wMiss approvedPayload = Except.ok tr ∧
      deletes tr = [] ∧ sends tr = [] :=
  handle_reviewed_zero_results_no_action cfg0 wMiss approvedPayload
    (Json.obj [("state", Json.str "approved")])
    (Json.obj
      [("number", Json.num 7),
       ("title", Json.str "Fix race"),
       ("html_url", Json.str "https://github.com/x/y/pull/7"),
       ("user", Json.obj [("login", Json.str "alice")])])
    (Json.num 7) "Fix race" rfl rfl rfl rfl rfl rfl

/-- Claim C7: with no `code` query parameter, `github_auth` answers a
redirect to the provider authorize URL and stores the requested redirect
target (default `/`) in the session; with a `code`, it stores the token
obtained from the exchange in the session and answers a redirect to the
previously stored target (default `/`). -/
theorem github_auth_flow (aw : AuthWorld) (req : AuthRequest) (s : Session) :
    (req.query.lookup "code" = none →
      (github_auth aw req s).1 = ⟨aw.authorizeUrl "user:email"⟩ ∧
      (github_auth aw req s).2 "redirect_uri" =
        some ((req.query.lookup "redirect_uri").getD "/")) ∧
    (∀ code, req.query.lookup "code" = some code →
      (github_auth aw req s).1 = ⟨(s "redirect_uri").getD "/"⟩ ∧
      (github_auth aw req s).2 "token" = some (aw.accessToken code)) := by
  constructor
  · intro h
    simp [github_auth, h, sessionSet]
  · intro code h
    refine ⟨?_, ?_⟩
    · simp [github_auth, h, sessionSet]
    · simp [github_auth, h, sessionSet, sessionDel]

/-- Witness for C7 at a concrete request with no code parameter. -/
theorem github_auth_flow_witness :
    (github_auth authW ⟨[("redirect_uri", "/home")]⟩ emptySession).1 =
      ⟨authW.authorizeUrl "user:email"⟩ ∧
    (github_auth authW ⟨[("redirect_uri", "/home")]⟩ emptySession).2
      "redirect_uri" = some "/home" :=
  (github_auth_flow authW ⟨[("redirect_uri", "/home")]⟩ emptySession).1 rfl

/-- Claim C8: for a `submitted` payload whose review state is not
`approved`, `_handle_reviewed` performs no approval check: the trace
holds no GitHub search request (the only source of one is
`is_pr_approved`). -/
theorem handle_reviewed_not_approved_no_check
    (c : Config) (w : World) (data rv pr numJ st : Json)
    (hr : data.item "review" = Except.ok rv)
    (hs : rv.item "state" = Except.ok st)
    (hst : st.beqStr "approved" = false)
    (hp : data.item "pull_request" = Except.ok pr)
    (hn : pr.item "number" = Except.ok numJ) :
    ∃ tr : List Effect,
      _handle_reviewed c w data = Except.ok tr ∧ searches tr = [] := by
  refine ⟨[], ?_, rfl⟩
  simp [_handle_reviewed, hr, hs, hp, hn, hst, Bind.bind, Except.bind,
    pure, Except.pure]

/-- Witness for C8 at a changes-requested payload. -/
theorem handle_reviewed_not_approved_no_check_witness :
    ∃ tr : List Effect,
      _handle_reviewed cfg0 wHit changesPayload = Except.ok tr ∧
      searches tr = [] :=
  handle_reviewed_not_approved_no_check cfg0 wHit changesPayload
    (Json.obj [("state", Json.str "changes_requested")])
    (Json.obj [("number", Json.num 7), ("title", Json.str "Fix race")])
    (Json.num 7) (Json.str "changes_requested")
    rfl rfl (by decide) rfl rfl

/-- Claim C9: for a `labeled` payload whose label name differs from the
configured target label, `_handle_labeled` sends no notification (its
trace is empty). -/
theorem handle_labeled_nonmatching_silent
    (c : Config) (data lb pr u numJ : Json)
    (title url login name : String)
    (hl : data.item "label" = Except.ok lb)
    (hp : data.item "pull_request" = Except.ok pr)
    (hn : pr.item "number" = Except.ok numJ)
    (ht : pr.item "title" = Except.ok (Json.str title))
    (hu : pr.item "html_url" = Except.ok (Json.str url))
    (hg : pr.item "user" = Except.ok u)
    (hlogin : u.item "login" = Except.ok (Json.str login))
    (hname : lb.item "name" = Except.ok (Json.str name))
    (hdiff : name ≠ c.DEFAULT_LABEL_NAME) :
    _handle_labeled c data = Except.ok [] := by
  simp [_handle_labeled, hl, hp, hn, ht, hu, hg, hlogin, hname,
    Json.beqStr, hdiff, Bind.bind, Except.bind, pure, Except.pure]

/-- Witness for C9 at a payload labeled with a non-matching name. -/
theorem handle_labeled_nonmatching_silent_witness :
    _handle_labeled cfg0 otherLabelPayload = Except.ok [] :=
  handle_labeled_nonmatching_silent cfg0 otherLabelPayload
    (Json.obj [("name", Json.str "bug")])
    (Json.obj
      [("number", Json.num 7),
       ("title", Json.str "t"),
       ("html_url", Json.str "u"),
       ("user", Json.obj [("login", Json.str "l")])])
    (Json.obj [("login", Json.str "l")])
    (Json.num 7) "t" "u" "l" "bug" rfl rfl rfl rfl rfl rfl rfl rfl
    (by decide)

/-- Claim C10: for a JSON object body with no `action` key,
`handle_pr_event` takes the unknown-action branch: the only effect is a
debug log line (no Slack send, no search, no deletion) and the response
is HTTP 200 with body `Ok`. -/
theorem handle_pr_event_missing_action_noop (c : Config) (w : World)
    (fields : List (String × Json)) (h : fields.lookup "action" = none) :
    handle_pr_event c w (Json.obj fields) =
      Except.ok ([Effect.logDebug "Unknown action None"], webResponse "Ok") ∧
    sends [Effect.logDebug "Unknown action None"] = [] ∧
    searches [Effect.logDebug "Unknown action None"] = [] ∧
    deletes [Effect.logDebug "Unknown action None"] = [] := by
  refine ⟨?_, rfl, rfl, rfl⟩
  simp [handle_pr_event, Json.get, h, Json.beqStr, Json.pystr,
    Bind.bind, Except.bind, pure, Except.pure]

/-- Witness for C10 at the empty JSON object. -/
theorem handle_pr_event_missing_action_noop_witness :
    handle_pr_event cfg0 wHit (Json.obj []) =
      Except.ok ([Effect.logDebug "Unknown action None"], webResponse "Ok") ∧
    sends [Effect.logDebug "Unknown action None"] = [] ∧
    searches [Effect.logDebug "Unknown action None"] = [] ∧
    deletes [Effect.logDebug "Unknown action None"] = [] :=
  handle_pr_event_missing_action_noop cfg0 wHit [] rfl
